import Mathlib

/-!
Shallow embedding of the EnviroVoice signaling server
(src/server-production.js): the StateManager class, the snapshot
ingestion endpoint, the HTTP state queries, and the per-connection
message and close handlers, together with theorems settling the
frozen claims about them.

JavaScript Map objects are modelled as association lists in insertion
order; Map.set replaces the value in place when the key is present and
appends otherwise, Map.delete removes the entry for the key, and
iteration follows the list order.  Connections (ws objects) are opaque
ids modelled as natural numbers; timestamps are naturals.
-/

namespace EnviroVoice

/-- Model of a live connection handle (a ws object identity). -/
abbrev Conn := Nat

/-! ### JavaScript Map operations on association lists -/

/-- Map.get: first binding of the key, if any. -/
def jsMapGet {α β : Type} [DecidableEq α] : List (α × β) → α → Option β
  | [], _ => none
  | (a, b) :: m, k => if a = k then some b else jsMapGet m k

/-- Map.set: replace the binding in place when the key is present,
append otherwise. -/
def jsMapSet {α β : Type} [DecidableEq α] : List (α × β) → α → β → List (α × β)
  | [], k, v => [(k, v)]
  | (a, b) :: m, k, v => if a = k then (k, v) :: m else (a, b) :: jsMapSet m k v

/-- Map.delete: remove the binding for the key. -/
def jsMapDelete {α β : Type} [DecidableEq α] : List (α × β) → α → List (α × β)
  | [], _ => []
  | (a, b) :: m, k => if a = k then m else (a, b) :: jsMapDelete m k

/-- Map.has, expressed through get. -/
def jsMapHas {α β : Type} [DecidableEq α] (m : List (α × β)) (k : α) : Bool :=
  (jsMapGet m k).isSome

/-- Keys of a map are pairwise distinct; JavaScript Map objects
guarantee this by construction. -/
abbrev keysNodup {α β : Type} (m : List (α × β)) : Prop :=
  (m.map Prod.fst).Nodup

theorem jsMapGet_set_self {α β : Type} [DecidableEq α]
    (m : List (α × β)) (k : α) (v : β) :
    jsMapGet (jsMapSet m k v) k = some v := by
  induction m with
  | nil => simp [jsMapSet, jsMapGet]
  | cons p m ih =>
    obtain ⟨a, b⟩ := p
    by_cases h : a = k
    · simp [jsMapSet, jsMapGet, h]
    · simp [jsMapSet, jsMapGet, h, ih]

theorem jsMapGet_set_ne {α β : Type} [DecidableEq α]
    (m : List (α × β)) (k k₂ : α) (v : β) (h : k ≠ k₂) :
    jsMapGet (jsMapSet m k v) k₂ = jsMapGet m k₂ := by
  induction m with
  | nil => simp [jsMapSet, jsMapGet, h]
  | cons p m ih =>
    obtain ⟨a, b⟩ := p
    by_cases ha : a = k
    · subst ha; simp [jsMapSet, jsMapGet, h]
    · by_cases ha2 : a = k₂
      · subst ha2; simp [jsMapSet, jsMapGet, ha, jsMapGet, Ne.symm h]
      · simp [jsMapSet, jsMapGet, ha, ha2, ih]

theorem jsMapGet_delete_ne {α β : Type} [DecidableEq α]
    (m : List (α × β)) (k k₂ : α) (h : k ≠ k₂) :
    jsMapGet (jsMapDelete m k) k₂ = jsMapGet m k₂ := by
  induction m with
  | nil => simp [jsMapDelete]
  | cons p m ih =>
    obtain ⟨a, b⟩ := p
    by_cases ha : a = k
    · subst ha; simp [jsMapDelete, jsMapGet, h]
    · by_cases ha2 : a = k₂
      · subst ha2; simp [jsMapDelete, jsMapGet, ha, Ne.symm h]
      · simp [jsMapDelete, jsMapGet, ha, ha2, ih]

theorem jsMapGet_eq_none_of_not_mem_keys {α β : Type} [DecidableEq α]
    (m : List (α × β)) (k : α) (h : k ∉ m.map Prod.fst) :
    jsMapGet m k = none := by
  induction m with
  | nil => simp [jsMapGet]
  | cons p m ih =>
    obtain ⟨a, b⟩ := p
    simp only [List.map_cons, List.mem_cons] at h
    push_neg at h
    have ha : a ≠ k := fun hk => h.1 hk.symm
    simp only [jsMapGet, if_neg ha]
    exact ih h.2

theorem jsMapGet_delete_self {α β : Type} [DecidableEq α]
    (m : List (α × β)) (k : α) (h : keysNodup m) :
    jsMapGet (jsMapDelete m k) k = none := by
  induction m with
  | nil => simp [jsMapDelete, jsMapGet]
  | cons p m ih =>
    obtain ⟨a, b⟩ := p
    simp only [keysNodup, List.map_cons, List.nodup_cons] at h
    by_cases ha : a = k
    · subst ha
      simp only [jsMapDelete, if_pos rfl]
      exact jsMapGet_eq_none_of_not_mem_keys m a h.1
    · simp only [jsMapDelete, if_neg ha, jsMapGet, if_neg ha]
      exact ih h.2

theorem jsMapDelete_of_get_none {α β : Type} [DecidableEq α]
    (m : List (α × β)) (k : α) (h : jsMapGet m k = none) :
    jsMapDelete m k = m := by
  induction m with
  | nil => simp [jsMapDelete]
  | cons p m ih =>
    obtain ⟨a, b⟩ := p
    by_cases ha : a = k
    · simp [jsMapGet, ha] at h
    · simp only [jsMapGet, if_neg ha] at h
      simp [jsMapDelete, ha, ih h]

theorem jsMapGet_some_mem {α β : Type} [DecidableEq α]
    (m : List (α × β)) (k : α) (v : β) (h : jsMapGet m k = some v) :
    (k, v) ∈ m := by
  induction m with
  | nil => simp [jsMapGet] at h
  | cons p m ih =>
    obtain ⟨a, b⟩ := p
    rw [jsMapGet] at h
    by_cases ha : a = k
    · rw [if_pos ha] at h
      subst ha
      rw [Option.some.injEq] at h
      subst h
      exact List.mem_cons_self _ _
    · rw [if_neg ha] at h
      exact List.mem_cons_of_mem _ (ih h)

/-! ### Configuration constants (CONFIG in the source) -/

def MAX_CONNECTIONS : Nat := 200

def RATE_LIMIT_WINDOW : Nat := 1000

def RATE_LIMIT_MAX : Nat := 50

/-! ### Data model -/

/-- Per-client record stored in the clients map (see addClient). -/
structure ClientData where
  gamertag : String
  joinedAt : Nat
  lastActivity : Nat
  messageCount : Nat
deriving Repr, DecidableEq

/-- Entry of the pttStates map. -/
structure PTTState where
  isTalking : Bool
  isMuted : Bool
deriving Repr, DecidableEq

/-- Entry of the voiceStates map. -/
structure VoiceState where
  isTalking : Bool
  volume : Int
deriving Repr, DecidableEq

/-- Entry of the rateLimits map. -/
structure RateLimit where
  count : Nat
  resetAt : Nat
deriving Repr, DecidableEq

/-- Record of a snapshot player (POST /minecraft-data body element).
The name is absent when the field is missing; the nested data block is
absent when the record has none (the code substitutes an empty object).
The voiceVolume is given only when the JSON field is a number. -/
structure PlayerData where
  isMuted : Bool
  isTalking : Bool
  voiceVolume : Option Int
deriving Repr, DecidableEq

structure Player where
  name : Option String
  data : Option PlayerData
deriving Repr, DecidableEq

/-- The StateManager class fields. -/
structure StateManager where
  minecraftData : Option (List Player)
  clients : List (Conn × ClientData)
  pttStates : List (String × PTTState)
  voiceStates : List (String × VoiceState)
  rateLimits : List (Conn × RateLimit)
deriving Repr, DecidableEq

namespace StateManager

/-- The constructor: all maps empty, no snapshot. -/
def init : StateManager :=
  { minecraftData := none, clients := [], pttStates := [],
    voiceStates := [], rateLimits := [] }

/-- isGamertagTaken: linear scan over the clients map. -/
def isGamertagTaken (sm : StateManager) (gamertag : String) : Bool :=
  sm.clients.any (fun p => p.2.gamertag = gamertag)

/-- addClient: throws at capacity or on a duplicate gamertag, otherwise
registers the connection and initializes its PTT and voice states. -/
def addClient (sm : StateManager) (ws : Conn) (gamertag : String)
    (now : Nat) : Except String StateManager :=
  if sm.clients.length ≥ MAX_CONNECTIONS then
    .error "Server at capacity"
  else if sm.isGamertagTaken gamertag then
    .error "Gamertag already in use"
  else
    .ok { sm with
      clients := jsMapSet sm.clients ws
        { gamertag := gamertag, joinedAt := now,
          lastActivity := now, messageCount := 0 },
      pttStates := jsMapSet sm.pttStates gamertag
        { isTalking := true, isMuted := false },
      voiceStates := jsMapSet sm.voiceStates gamertag
        { isTalking := false, volume := 0 } }

/-- removeClient: when the connection is registered, deletes its PTT
and voice states (under its current gamertag), its rate window and its
client record; otherwise does nothing. -/
def removeClient (sm : StateManager) (ws : Conn) : StateManager :=
  match jsMapGet sm.clients ws with
  | some clientData =>
      { sm with
        pttStates := jsMapDelete sm.pttStates clientData.gamertag,
        voiceStates := jsMapDelete sm.voiceStates clientData.gamertag,
        rateLimits := jsMapDelete sm.rateLimits ws,
        clients := jsMapDelete sm.clients ws }
  | none => sm

/-- checkRateLimit: fetches the window (a fresh zero-count window
expiring at now plus RATE_LIMIT_WINDOW when absent), resets it if now
is strictly past resetAt and increments it otherwise, stores it back,
and allows the message exactly when the stored count is at most
RATE_LIMIT_MAX. -/
def checkRateLimit (sm : StateManager) (ws : Conn) (now : Nat) :
    StateManager × Bool :=
  let limit := (jsMapGet sm.rateLimits ws).getD
    { count := 0, resetAt := now + RATE_LIMIT_WINDOW }
  let limit' :=
    if now > limit.resetAt then
      { count := 1, resetAt := now + RATE_LIMIT_WINDOW }
    else
      { limit with count := limit.count + 1 }
  ({ sm with rateLimits := jsMapSet sm.rateLimits ws limit' },
   limit'.count ≤ RATE_LIMIT_MAX)

/-- updateActivity: refreshes lastActivity and bumps messageCount for
a registered connection; no-op otherwise. -/
def updateActivity (sm : StateManager) (ws : Conn) (now : Nat) :
    StateManager :=
  match jsMapGet sm.clients ws with
  | some client =>
      let client' : ClientData :=
        { client with lastActivity := now,
                      messageCount := client.messageCount + 1 }
      { sm with clients := jsMapSet sm.clients ws client' }
  | none => sm

/-- getParticipants: gamertags of the clients map in insertion order. -/
def getParticipants (sm : StateManager) : List String :=
  sm.clients.map (fun p => p.2.gamertag)

end StateManager

/-- The target-lookup loop of the signaling branch: the first client
whose gamertag equals the target, if any. -/
def findConnAux : List (Conn × ClientData) → String → Option Conn
  | [], _ => none
  | (c, d) :: m, gamertag =>
      if d.gamertag = gamertag then some c else findConnAux m gamertag

def findConnection (sm : StateManager) (gamertag : String) : Option Conn :=
  findConnAux sm.clients gamertag

/-! ### Snapshot ingestion (POST /minecraft-data) and state queries -/

/-- Default for a missing data block (empty object: every Boolean
coercion yields false, voiceVolume is not a number). -/
def emptyPlayerData : PlayerData :=
  { isMuted := false, isTalking := false, voiceVolume := none }

/-- Body of the per-player loop: skip records whose name is missing or
empty, otherwise upsert the PTT and voice states from the data block,
defaulting a missing or non-numeric voiceVolume to -100. -/
def processPlayer (sm : StateManager) (p : Player) : StateManager :=
  match p.name with
  | none => sm
  | some gamertag =>
      if gamertag = "" then sm
      else
        let d := p.data.getD emptyPlayerData
        { sm with
          pttStates := jsMapSet sm.pttStates gamertag
            { isTalking := d.isTalking, isMuted := d.isMuted },
          voiceStates := jsMapSet sm.voiceStates gamertag
            { isTalking := d.isTalking,
              volume := d.voiceVolume.getD (-100) } }

/-- State change of the POST /minecraft-data handler: store the body
and run the per-player loop over the players array. -/
def minecraftDataPost (sm : StateManager) (players : List Player) :
    StateManager :=
  players.foldl processPlayer { sm with minecraftData := some players }

/-- Row of the GET /ptt-states response. -/
structure PTTRow where
  gamertag : String
  isTalking : Bool
  isMuted : Bool
deriving Repr, DecidableEq

/-- Row of the GET /voice-states response. -/
structure VoiceRow where
  gamertag : String
  isTalking : Bool
  volume : Int
deriving Repr, DecidableEq

/-- GET /ptt-states: the pttStates entries flattened to rows. -/
def pttStatesQuery (sm : StateManager) : List PTTRow :=
  sm.pttStates.map (fun p =>
    { gamertag := p.1, isTalking := p.2.isTalking, isMuted := p.2.isMuted })

/-- GET /voice-states: the voiceStates entries flattened to rows. -/
def voiceStatesQuery (sm : StateManager) : List VoiceRow :=
  sm.voiceStates.map (fun p =>
    { gamertag := p.1, isTalking := p.2.isTalking, volume := p.2.volume })

/-! ### Message envelope and dispatcher -/

/-- Kinds of WebRTC signaling messages relayed verbatim. -/
inductive SignalKind where
  | offer
  | answer
  | iceCandidate
deriving Repr, DecidableEq

/-- Parsed inbound message envelope, by the type tag.  The voice
volume field is absent when the JSON field is missing (the code then
substitutes 0 via a falsy-or).  Signaling messages carry optional
to and from fields, absent or empty when falsy.  The unrecognized
constructor stands for any tag the dispatcher has no branch for. -/
inductive Message where
  | join (gamertag : String)
  | leave
  | voiceDetection (gamertag : String) (isTalking : Bool) (volume : Option Int)
  | pttStatus (gamertag : String) (isTalking : Bool) (isMuted : Bool)
  | signal (kind : SignalKind) (toG fromG : Option String)
  | heartbeat
  | requestParticipants
  | unrecognized
deriving Repr, DecidableEq

/-- Server-originated message payloads. -/
inductive OutMsg where
  | participantsList (list : List String)
  | joinEvent (gamertag : String)
  | leaveEvent (gamertag : Option String)
  | pttUpdate (gamertag : String) (isTalking : Bool) (isMuted : Bool)
  | errorMsg (message : String)
  | signalForward (kind : SignalKind) (toG fromG : Option String)
deriving Repr, DecidableEq

/-- Observable transport effects of a handler, in order. -/
inductive Output where
  | sendTo (ws : Conn) (m : OutMsg)
  | bcastExcept (ws : Conn) (m : OutMsg)
  | bcastAll (m : OutMsg)
  | closeConn (ws : Conn) (code : Nat) (reason : String)
deriving Repr, DecidableEq

/-- Result of one run of the message handler: the new manager state,
the new value of the per-connection gamertag variable, and the
outputs issued, in order. -/
structure HandlerResult where
  sm : StateManager
  gamertag : Option String
  outputs : List Output
deriving Repr, DecidableEq

/-- Truthiness of an optional string (undefined, null and the empty
string are falsy). -/
def jsTruthyStr : Option String → Bool
  | none => false
  | some s => s ≠ ""

open StateManager in
/-- One run of the ws message handler for connection ws, whose
per-connection gamertag variable currently holds cg.  The raw
argument is none when JSON.parse throws (the catch block only logs).
The ready function tells which connections have readyState 1; it is
consulted only by the signaling branch, broadcasts being deferred
through Output.  The rate limit is checked first; on rejection an
error is sent and nothing else happens.  Then activity is updated and
the body parsed, and the parsed message dispatched on its tag. -/
def handleMessage (sm : StateManager) (ws : Conn) (cg : Option String)
    (raw : Option Message) (now : Nat) (ready : Conn → Bool) :
    HandlerResult :=
  let checked := checkRateLimit sm ws now
  if !checked.2 then
    { sm := checked.1, gamertag := cg,
      outputs := [.sendTo ws (.errorMsg "Rate limit exceeded")] }
  else
    let sm2 := updateActivity checked.1 ws now
    match raw with
    | none => { sm := sm2, gamertag := cg, outputs := [] }
    | some msg =>
      match msg with
      | .join g =>
          match addClient sm2 ws g now with
          | .ok sm3 =>
              { sm := sm3, gamertag := some g,
                outputs :=
                  [.sendTo ws (.participantsList (getParticipants sm3)),
                   .bcastExcept ws (.joinEvent g),
                   .bcastAll (.participantsList (getParticipants sm3))] }
          | .error e =>
              { sm := sm2, gamertag := cg,
                outputs := [.sendTo ws (.errorMsg e), .closeConn ws 1008 e] }
      | .leave =>
          { sm := removeClient sm2 ws, gamertag := cg,
            outputs := [.bcastExcept ws (.leaveEvent cg)] }
      | .voiceDetection g t v =>
          let vs : VoiceState := { isTalking := t, volume := v.getD 0 }
          { sm := { sm2 with voiceStates := jsMapSet sm2.voiceStates g vs },
            gamertag := cg, outputs := [] }
      | .pttStatus g t muted =>
          let ps : PTTState := { isTalking := t, isMuted := muted }
          { sm := { sm2 with pttStates := jsMapSet sm2.pttStates g ps },
            gamertag := cg,
            outputs := [.bcastAll (.pttUpdate g t muted)] }
      | .signal kind toG fromG =>
          if !(jsTruthyStr toG) || !(jsTruthyStr fromG) then
            { sm := sm2, gamertag := cg, outputs := [] }
          else
            match findConnection sm2 (toG.getD "") with
            | some target =>
                if ready target then
                  { sm := sm2, gamertag := cg,
                    outputs := [.sendTo target (.signalForward kind toG fromG)] }
                else
                  { sm := sm2, gamertag := cg, outputs := [] }
            | none => { sm := sm2, gamertag := cg, outputs := [] }
      | .heartbeat => { sm := sm2, gamertag := cg, outputs := [] }
      | .requestParticipants =>
          { sm := sm2, gamertag := cg,
            outputs := [.sendTo ws (.participantsList (getParticipants sm2))] }
      | .unrecognized => { sm := sm2, gamertag := cg, outputs := [] }

open StateManager in
/-- The ws close handler: when the per-connection gamertag variable
holds a truthy value — set and non-empty, mirroring the if (gamertag)
guard of the source, under which the empty string is falsy — remove
the client, broadcast a leave event to the others and the updated
participants list to all; otherwise do nothing. -/
def handleClose (sm : StateManager) (ws : Conn) (cg : Option String) :
    StateManager × List Output :=
  if jsTruthyStr cg then
    let sm' := removeClient sm ws
    (sm',
     [.bcastExcept ws (.leaveEvent cg),
      .bcastAll (.participantsList (getParticipants sm'))])
  else (sm, [])

/-! ### Harness definitions used by the scenarios -/

/-- A readiness oracle under which every connection is open. -/
def readyAll : Conn → Bool := fun _ => true

/-- A sequence of rate-limit checks for one connection at the given
times, returning the final state and the verdicts in order. -/
def rateSeq (sm : StateManager) (ws : Conn) : List Nat → StateManager × List Bool
  | [] => (sm, [])
  | t :: ts =>
      let r := sm.checkRateLimit ws t
      let rest := rateSeq r.1 ws ts
      (rest.1, r.2 :: rest.2)

/-- Gamertags of a clients map, in insertion order. -/
def gamertagsOf (m : List (Conn × ClientData)) : List String :=
  m.map (fun p => p.2.gamertag)

/-- Detects a participants-list broadcast among handler outputs. -/
def isParticipantsBroadcast : Output → Bool
  | .bcastAll (.participantsList _) => true
  | _ => false

/-! ### Helper lemmas on the operations -/

theorem jsMapSet_map_of_get_some {α β γ : Type} [DecidableEq α]
    (m : List (α × β)) (k : α) (v b : β) (f : α × β → γ)
    (hget : jsMapGet m k = some b) (hf : f (k, v) = f (k, b)) :
    (jsMapSet m k v).map f = m.map f := by
  induction m with
  | nil => simp [jsMapGet] at hget
  | cons p m ih =>
    obtain ⟨a, c⟩ := p
    rw [jsMapGet] at hget
    by_cases ha : a = k
    · rw [if_pos ha] at hget
      obtain rfl := Option.some.inj hget
      subst ha
      simp [jsMapSet, hf]
    · rw [if_neg ha] at hget
      simp [jsMapSet, ha, ih hget]

namespace StateManager

theorem checkRateLimit_clients (sm : StateManager) (ws : Conn) (now : Nat) :
    (sm.checkRateLimit ws now).1.clients = sm.clients := rfl

theorem checkRateLimit_pttStates (sm : StateManager) (ws : Conn) (now : Nat) :
    (sm.checkRateLimit ws now).1.pttStates = sm.pttStates := rfl

theorem checkRateLimit_voiceStates (sm : StateManager) (ws : Conn) (now : Nat) :
    (sm.checkRateLimit ws now).1.voiceStates = sm.voiceStates := rfl

theorem updateActivity_gamertags (sm : StateManager) (ws : Conn) (now : Nat) :
    gamertagsOf (sm.updateActivity ws now).clients = gamertagsOf sm.clients := by
  unfold updateActivity
  cases h : jsMapGet sm.clients ws with
  | none => rfl
  | some client =>
      simp only [gamertagsOf]
      exact jsMapSet_map_of_get_some _ _ _ client _ h rfl

theorem updateActivity_keys (sm : StateManager) (ws : Conn) (now : Nat) :
    (sm.updateActivity ws now).clients.map Prod.fst =
      sm.clients.map Prod.fst := by
  unfold updateActivity
  cases h : jsMapGet sm.clients ws with
  | none => rfl
  | some client => exact jsMapSet_map_of_get_some _ _ _ client _ h rfl

theorem updateActivity_length (sm : StateManager) (ws : Conn) (now : Nat) :
    (sm.updateActivity ws now).clients.length = sm.clients.length := by
  have h := updateActivity_keys sm ws now
  have := congrArg List.length h
  simpa using this

theorem updateActivity_get_ne (sm : StateManager) (ws a : Conn) (now : Nat)
    (h : ws ≠ a) :
    jsMapGet (sm.updateActivity ws now).clients a = jsMapGet sm.clients a := by
  unfold updateActivity
  cases hg : jsMapGet sm.clients ws with
  | none => rfl
  | some client => exact jsMapGet_set_ne _ _ _ _ h

theorem updateActivity_get_self (sm : StateManager) (ws : Conn) (now : Nat)
    (cd : ClientData) (h : jsMapGet sm.clients ws = some cd) :
    jsMapGet (sm.updateActivity ws now).clients ws =
      some { cd with lastActivity := now,
                     messageCount := cd.messageCount + 1 } := by
  unfold updateActivity
  rw [h]
  exact jsMapGet_set_self _ _ _

theorem updateActivity_pttStates (sm : StateManager) (ws : Conn) (now : Nat) :
    (sm.updateActivity ws now).pttStates = sm.pttStates := by
  unfold updateActivity
  cases h : jsMapGet sm.clients ws <;> rfl

theorem updateActivity_voiceStates (sm : StateManager) (ws : Conn) (now : Nat) :
    (sm.updateActivity ws now).voiceStates = sm.voiceStates := by
  unfold updateActivity
  cases h : jsMapGet sm.clients ws <;> rfl

theorem isGamertagTaken_of_get (sm : StateManager) (ws : Conn)
    (cd : ClientData) (h : jsMapGet sm.clients ws = some cd) :
    sm.isGamertagTaken cd.gamertag = true := by
  have hm := jsMapGet_some_mem _ _ _ h
  simp only [isGamertagTaken, List.any_eq_true]
  exact ⟨(ws, cd), hm, by simp⟩

theorem gamertags_any (m : List (Conn × ClientData)) (g : String) :
    m.any (fun p => p.2.gamertag = g) =
      (gamertagsOf m).any (fun x => x = g) := by
  induction m with
  | nil => rfl
  | cons p m ih =>
    simp only [gamertagsOf, List.map_cons, List.any_cons] at *
    rw [ih]

theorem isGamertagTaken_congr (sm₂ sm : StateManager)
    (h : gamertagsOf sm₂.clients = gamertagsOf sm.clients) (g : String) :
    sm₂.isGamertagTaken g = sm.isGamertagTaken g := by
  unfold isGamertagTaken
  rw [gamertags_any, gamertags_any, h]

theorem getParticipants_eq_gamertags (sm : StateManager) :
    sm.getParticipants = gamertagsOf sm.clients := rfl

end StateManager

/-- Members of a map after a delete were members before. -/
theorem mem_of_mem_jsMapDelete {α β : Type} [DecidableEq α]
    (m : List (α × β)) (k : α) (x : α × β)
    (h : x ∈ jsMapDelete m k) : x ∈ m := by
  induction m with
  | nil => simp [jsMapDelete] at h
  | cons p m ih =>
    obtain ⟨a, b⟩ := p
    by_cases ha : a = k
    · rw [jsMapDelete, if_pos ha] at h
      exact List.mem_cons_of_mem _ h
    · rw [jsMapDelete, if_neg ha] at h
      rcases List.mem_cons.mp h with h1 | h1
      · exact h1 ▸ List.mem_cons_self _ _
      · exact List.mem_cons_of_mem _ (ih h1)

/-- With pairwise-distinct keys, deleting a key removes every binding
for it. -/
theorem not_mem_jsMapDelete_self {α β : Type} [DecidableEq α]
    (m : List (α × β)) (k : α) (v : β) (h : keysNodup m) :
    (k, v) ∉ jsMapDelete m k := by
  intro hmem
  induction m with
  | nil => simp [jsMapDelete] at hmem
  | cons p m ih =>
    obtain ⟨a, b⟩ := p
    simp only [keysNodup, List.map_cons, List.nodup_cons] at h
    by_cases ha : a = k
    · subst ha
      rw [jsMapDelete, if_pos rfl] at hmem
      exact h.1 (List.mem_map.mpr ⟨(a, v), hmem, rfl⟩)
    · rw [jsMapDelete, if_neg ha] at hmem
      rcases List.mem_cons.mp hmem with h1 | h1
      · exact ha (congrArg Prod.fst h1).symm
      · exact ih h.2 h1

/-- The target scan misses exactly when no client carries the
gamertag. -/
theorem findConnAux_eq_none (m : List (Conn × ClientData)) (g : String)
    (h : ∀ c d, (c, d) ∈ m → d.gamertag ≠ g) :
    findConnAux m g = none := by
  induction m with
  | nil => rfl
  | cons p m ih =>
    obtain ⟨c, d⟩ := p
    rw [findConnAux, if_neg (h c d (List.mem_cons_self _ _))]
    exact ih (fun c2 d2 hm => h c2 d2 (List.mem_cons_of_mem _ hm))

/-! ### Concrete fixtures for witnesses and counterexamples -/

def aliceData : ClientData :=
  { gamertag := "Alice", joinedAt := 10, lastActivity := 10, messageCount := 0 }

def bobData : ClientData :=
  { gamertag := "Bob", joinedAt := 12, lastActivity := 12, messageCount := 0 }

/-- A state with Alice alone registered on connection 0, as produced
by her join at time 10 (her join consumed one rate-limit slot). -/
def smAlice : StateManager :=
  { minecraftData := none,
    clients := [(0, aliceData)],
    pttStates := [("Alice", { isTalking := true, isMuted := false })],
    voiceStates := [("Alice", { isTalking := false, volume := 0 })],
    rateLimits := [(0, { count := 1, resetAt := 1010 })] }

/-- A state with Alice on connection 0 and Bob on connection 1. -/
def smAliceBob : StateManager :=
  { minecraftData := none,
    clients := [(0, aliceData), (1, bobData)],
    pttStates := [("Alice", { isTalking := true, isMuted := false }),
                  ("Bob", { isTalking := true, isMuted := false })],
    voiceStates := [("Alice", { isTalking := false, volume := 0 }),
                    ("Bob", { isTalking := false, volume := 0 })],
    rateLimits := [] }

/-! ### Claims -/

open StateManager

/-- C1: in every state where a participant is registered under
identity X, a join attempt for X from any other connection (that
passes the rate limiter, with the room under capacity) fails: the
attempting connection is sent an error message and closed, the
registered gamertags are unchanged (so the first registrant is still
registered under X and the identity list keeps its length), and the
duplicate check is an exact, case-sensitive string match. -/
theorem duplicate_join_rejected
    (sm : StateManager) (a b : Conn) (cd : ClientData) (X : String)
    (cg : Option String) (now : Nat) (ready : Conn → Bool)
    (hreg : jsMapGet sm.clients a = some cd) (hX : cd.gamertag = X)
    (hne : b ≠ a)
    (hcap : sm.clients.length < MAX_CONNECTIONS)
    (hrate : (sm.checkRateLimit b now).2 = true) :
    (handleMessage sm b cg (some (.join X)) now ready).outputs =
      [.sendTo b (.errorMsg "Gamertag already in use"),
       .closeConn b 1008 "Gamertag already in use"] ∧
    gamertagsOf (handleMessage sm b cg (some (.join X)) now ready).sm.clients =
      gamertagsOf sm.clients ∧
    (handleMessage sm b cg (some (.join X)) now ready).sm.getParticipants =
      sm.getParticipants ∧
    jsMapGet (handleMessage sm b cg (some (.join X)) now ready).sm.clients a =
      some cd ∧
    (∀ Y : String, sm.isGamertagTaken Y = true ↔
      ∃ p ∈ sm.clients, p.2.gamertag = Y) := by
  set sm1 := (sm.checkRateLimit b now).1 with hsm1
  set sm2 := sm1.updateActivity b now with hsm2
  have hc1 : sm1.clients = sm.clients := rfl
  have hgam : gamertagsOf sm2.clients = gamertagsOf sm.clients := by
    rw [hsm2, updateActivity_gamertags, hc1]
  have hlen : sm2.clients.length = sm.clients.length := by
    have h := congrArg List.length hgam
    simpa [gamertagsOf] using h
  have htaken : sm2.isGamertagTaken X = true := by
    rw [isGamertagTaken_congr sm2 sm hgam]
    exact hX ▸ isGamertagTaken_of_get sm a cd hreg
  have hadd : sm2.addClient b X now = .error "Gamertag already in use" := by
    unfold addClient
    rw [if_neg (by rw [hlen]; exact Nat.not_le.mpr hcap), if_pos htaken]
  have hmain : handleMessage sm b cg (some (.join X)) now ready =
      { sm := sm2, gamertag := cg,
        outputs := [.sendTo b (.errorMsg "Gamertag already in use"),
                    .closeConn b 1008 "Gamertag already in use"] } := by
    unfold handleMessage
    simp only [← hsm1, ← hsm2, hrate, Bool.not_true, Bool.false_eq_true,
      if_false, hadd]
  refine ⟨by rw [hmain], by rw [hmain]; exact hgam, ?_, ?_, ?_⟩
  · rw [hmain]
    show sm2.getParticipants = sm.getParticipants
    rw [getParticipants_eq_gamertags, getParticipants_eq_gamertags]
    exact hgam
  · rw [hmain]
    show jsMapGet sm2.clients a = some cd
    rw [hsm2, updateActivity_get_ne sm1 b a now hne, hc1]
    exact hreg
  · intro Y
    simp [isGamertagTaken, List.any_eq_true]

/-- Witness for C1: Alice is registered on connection 0 of smAlice;
connection 1 attempts to join as Alice at time 20, is sent an error
and closed, and the participant list is still exactly Alice. -/
theorem duplicate_join_rejected_witness :
    (handleMessage smAlice 1 none (some (.join "Alice")) 20 readyAll).outputs =
      [.sendTo 1 (.errorMsg "Gamertag already in use"),
       .closeConn 1 1008 "Gamertag already in use"] ∧
    (handleMessage smAlice 1 none
      (some (.join "Alice")) 20 readyAll).sm.getParticipants = ["Alice"] := by
  have h := duplicate_join_rejected smAlice 0 1 aliceData "Alice" none 20
    readyAll (by decide) (by decide) (by decide) (by decide) (by decide)
  refine ⟨h.1, ?_⟩
  rw [h.2.2.1]
  decide

/-- C2: checkRateLimit behaves as a window counter.  On a connection
with no window yet the stored window becomes count 1 expiring at now
plus the window length and the message is allowed; with a window
present, the count resets to 1 (with a fresh expiry) when now is past
resetAt and increments otherwise; the verdict is allowed exactly when
the stored count is at most RATE_LIMIT_MAX.  Consequently, of 51
checks at one instant from a fresh state the first 50 are allowed and
the 51st rejected, and a check after the window expired is allowed
again with the counter reset to 1. -/
theorem checkRateLimit_window_counter
    (sm : StateManager) (ws : Conn) (now : Nat) :
    (jsMapGet sm.rateLimits ws = none →
      jsMapGet (sm.checkRateLimit ws now).1.rateLimits ws =
        some { count := 1, resetAt := now + RATE_LIMIT_WINDOW } ∧
      (sm.checkRateLimit ws now).2 = true) ∧
    (∀ lim : RateLimit, jsMapGet sm.rateLimits ws = some lim →
      (now > lim.resetAt →
        jsMapGet (sm.checkRateLimit ws now).1.rateLimits ws =
          some { count := 1, resetAt := now + RATE_LIMIT_WINDOW }) ∧
      (¬ now > lim.resetAt →
        jsMapGet (sm.checkRateLimit ws now).1.rateLimits ws =
          some { count := lim.count + 1, resetAt := lim.resetAt })) ∧
    (∀ lim' : RateLimit,
      jsMapGet (sm.checkRateLimit ws now).1.rateLimits ws = some lim' →
      ((sm.checkRateLimit ws now).2 = true ↔
        lim'.count ≤ RATE_LIMIT_MAX)) ∧
    (rateSeq .init 0 (List.replicate 51 0)).2 =
      List.replicate 50 true ++ [false] ∧
    ((rateSeq .init 0 (List.replicate 51 0)).1.checkRateLimit 0 1001).2 =
      true ∧
    jsMapGet ((rateSeq .init 0
        (List.replicate 51 0)).1.checkRateLimit 0 1001).1.rateLimits 0 =
      some { count := 1, resetAt := 2001 } := by
  have hstored : ∀ L : RateLimit,
      jsMapGet (jsMapSet sm.rateLimits ws L) ws = some L :=
    fun L => jsMapGet_set_self sm.rateLimits ws L
  refine ⟨?_, ?_, ?_, by decide, by decide, by decide⟩
  · intro h
    unfold checkRateLimit
    rw [h]
    simp only [Option.getD]
    rw [if_neg (by exact Nat.not_lt.mpr (Nat.le_add_right now RATE_LIMIT_WINDOW))]
    exact ⟨hstored _, by simp [RATE_LIMIT_MAX]⟩
  · intro lim h
    unfold checkRateLimit
    rw [h]
    simp only [Option.getD]
    constructor
    · intro hgt
      rw [if_pos hgt]
      exact hstored _
    · intro hgt
      rw [if_neg hgt]
      exact hstored _
  · intro lim' h
    unfold checkRateLimit at h ⊢
    rw [hstored _] at h
    obtain rfl := Option.some.inj h
    simp

/-- Witness for C2: a second message from connection 0 of smAlice at
time 500 falls in the open window and increments the counter to 2,
and in the 51-message scenario the post-window check is allowed. -/
theorem checkRateLimit_window_counter_witness :
    jsMapGet (smAlice.checkRateLimit 0 500).1.rateLimits 0 =
      some { count := 2, resetAt := 1010 } ∧
    ((rateSeq .init 0 (List.replicate 51 0)).1.checkRateLimit 0 1001).2 =
      true := by
  have h := checkRateLimit_window_counter smAlice 0 500
  refine ⟨?_, h.2.2.2.2.1⟩
  have h2 := (h.2.1 { count := 1, resetAt := 1010 } (by decide)).2 (by decide)
  exact h2

/-- C3 counterexample: Bob (registered on connection 1 of smAliceBob)
sends leave; the handler emits only the leave broadcast to the others
and no participants-list broadcast to all, contrary to the claim. -/
theorem leave_no_list_broadcast_counterexample :
    (handleMessage smAliceBob 1 (some "Bob") (some .leave) 100
        readyAll).outputs =
      [.bcastExcept 1 (.leaveEvent (some "Bob"))] ∧
    ((handleMessage smAliceBob 1 (some "Bob") (some .leave) 100
        readyAll).outputs.all (fun o => !isParticipantsBroadcast o)) =
      true := by
  decide

/-- C3 amended: for every leave message on a connection that passes
the rate limiter, the dispatcher removes the client and broadcasts a
leave event (carrying the connection's recorded gamertag) to all
other connections; it does not broadcast an updated identity list —
that broadcast happens only in the close handler. -/
theorem leave_branch_behavior
    (sm : StateManager) (ws : Conn) (cg : Option String) (now : Nat)
    (ready : Conn → Bool)
    (hrate : (sm.checkRateLimit ws now).2 = true) :
    handleMessage sm ws cg (some .leave) now ready =
      { sm := removeClient
          ((sm.checkRateLimit ws now).1.updateActivity ws now) ws,
        gamertag := cg,
        outputs := [.bcastExcept ws (.leaveEvent cg)] } := by
  unfold handleMessage
  simp only [hrate, Bool.not_true, Bool.false_eq_true, if_false]

/-- Witness for C3 amended, at the Bob-leaves input. -/
theorem leave_branch_behavior_witness :
    handleMessage smAliceBob 1 (some "Bob") (some .leave) 100 readyAll =
      { sm := removeClient
          ((smAliceBob.checkRateLimit 1 100).1.updateActivity 1 100) 1,
        gamertag := some "Bob",
        outputs := [.bcastExcept 1 (.leaveEvent (some "Bob"))] } :=
  leave_branch_behavior smAliceBob 1 (some "Bob") 100 readyAll (by decide)

/-- C5 counterexample: a message whose body fails to parse, sent on
connection 0 of smAlice at time 30, is dropped with no reply, yet it
consumed a rate-limit slot (count 1 to 2) and updated lastActivity
and messageCount; the state is not unchanged as the claim requires. -/
theorem malformed_message_state_change_counterexample :
    (handleMessage smAlice 0 (some "Alice") none 30 readyAll).outputs =
      [] ∧
    jsMapGet (handleMessage smAlice 0 (some "Alice") none 30
        readyAll).sm.rateLimits 0 = some { count := 2, resetAt := 1010 } ∧
    jsMapGet smAlice.rateLimits 0 = some { count := 1, resetAt := 1010 } ∧
    jsMapGet (handleMessage smAlice 0 (some "Alice") none 30
        readyAll).sm.clients 0 =
      some { gamertag := "Alice", joinedAt := 10, lastActivity := 30,
             messageCount := 1 } ∧
    jsMapGet smAlice.clients 0 =
      some { gamertag := "Alice", joinedAt := 10, lastActivity := 10,
             messageCount := 0 } ∧
    (handleMessage smAlice 0 (some "Alice") none 30 readyAll).sm ≠
      smAlice := by
  decide

/-- C5 amended: the rate-limit check runs first on every inbound
message and always consumes the window; when it rejects, only an
error reply is sent; when it allows, activity is updated and only
then is the body parsed, so a message that fails to parse is dropped
with no reply but has already consumed the window and updated
lastActivity and messageCount. -/
theorem message_pipeline_order
    (sm : StateManager) (ws : Conn) (cg : Option String) (now : Nat)
    (ready : Conn → Bool) :
    ((sm.checkRateLimit ws now).2 = true →
      handleMessage sm ws cg none now ready =
        { sm := (sm.checkRateLimit ws now).1.updateActivity ws now,
          gamertag := cg, outputs := [] }) ∧
    ((sm.checkRateLimit ws now).2 = false →
      handleMessage sm ws cg none now ready =
        { sm := (sm.checkRateLimit ws now).1, gamertag := cg,
          outputs := [.sendTo ws (.errorMsg "Rate limit exceeded")] }) := by
  constructor
  · intro h
    unfold handleMessage
    simp only [h, Bool.not_true, Bool.false_eq_true, if_false]
  · intro h
    unfold handleMessage
    simp only [h, Bool.not_false, if_true]

/-- Witness for C5 amended, at the malformed-message input. -/
theorem message_pipeline_order_witness :
    handleMessage smAlice 0 (some "Alice") none 30 readyAll =
      { sm := (smAlice.checkRateLimit 0 30).1.updateActivity 0 30,
        gamertag := some "Alice", outputs := [] } :=
  (message_pipeline_order smAlice 0 (some "Alice") 30 readyAll).1 (by decide)

/-- C6 counterexample: Bob requests the participant list; the handler
replies to Bob alone and issues no broadcast, contrary to the claim
that the list is then broadcast to all connections. -/
theorem request_participants_no_broadcast_counterexample :
    (handleMessage smAliceBob 1 (some "Bob") (some .requestParticipants)
        100 readyAll).outputs =
      [.sendTo 1 (.participantsList ["Alice", "Bob"])] ∧
    ((handleMessage smAliceBob 1 (some "Bob") (some .requestParticipants)
        100 readyAll).outputs.all
      (fun o => !isParticipantsBroadcast o)) = true := by
  decide

/-- C6 amended: for every request-participants message that passes
the rate limiter, the server sends the current identity list to the
requester only; nothing is broadcast to the other connections. -/
theorem request_participants_behavior
    (sm : StateManager) (ws : Conn) (cg : Option String) (now : Nat)
    (ready : Conn → Bool)
    (hrate : (sm.checkRateLimit ws now).2 = true) :
    handleMessage sm ws cg (some .requestParticipants) now ready =
      { sm := (sm.checkRateLimit ws now).1.updateActivity ws now,
        gamertag := cg,
        outputs := [.sendTo ws (.participantsList
          ((sm.checkRateLimit ws now).1.updateActivity ws
            now).getParticipants)] } ∧
    ((sm.checkRateLimit ws now).1.updateActivity ws now).getParticipants =
      sm.getParticipants := by
  constructor
  · unfold handleMessage
    simp only [hrate, Bool.not_true, Bool.false_eq_true, if_false]
  · rw [getParticipants_eq_gamertags, getParticipants_eq_gamertags]
    rw [updateActivity_gamertags]
    rfl

/-- Witness for C6 amended, at the Bob-requests input. -/
theorem request_participants_behavior_witness :
    handleMessage smAliceBob 1 (some "Bob") (some .requestParticipants)
        100 readyAll =
      { sm := (smAliceBob.checkRateLimit 1 100).1.updateActivity 1 100,
        gamertag := some "Bob",
        outputs := [.sendTo 1 (.participantsList
          ((smAliceBob.checkRateLimit 1 100).1.updateActivity 1
            100).getParticipants)] } :=
  (request_participants_behavior smAliceBob 1 (some "Bob") 100 readyAll
    (by decide)).1

/-- C4: removeClient on a registered connection removes its client
record, the PTT and voice states under its gamertag and its rate
window; it is a no-op on an unregistered connection, hence calling it
twice is a no-op the second time (and, being total, it never throws);
and afterwards findConnection on that gamertag misses, given that the
gamertag was registered only on that connection. -/
theorem deregister_spec
    (sm : StateManager) (ws : Conn) (cd : ClientData)
    (hwc : keysNodup sm.clients) (hwp : keysNodup sm.pttStates)
    (hwv : keysNodup sm.voiceStates) (hwr : keysNodup sm.rateLimits)
    (hreg : jsMapGet sm.clients ws = some cd) :
    jsMapGet (sm.removeClient ws).clients ws = none ∧
    jsMapGet (sm.removeClient ws).pttStates cd.gamertag = none ∧
    jsMapGet (sm.removeClient ws).voiceStates cd.gamertag = none ∧
    jsMapGet (sm.removeClient ws).rateLimits ws = none ∧
    (∀ sm₂ : StateManager, jsMapGet sm₂.clients ws = none →
      sm₂.removeClient ws = sm₂) ∧
    (∀ sm₂ : StateManager, keysNodup sm₂.clients →
      (sm₂.removeClient ws).removeClient ws = sm₂.removeClient ws) ∧
    ((∀ p ∈ sm.clients, (p : Conn × ClientData).2.gamertag = cd.gamertag →
        p.1 = ws) →
      findConnection (sm.removeClient ws) cd.gamertag = none) := by
  have hrm : sm.removeClient ws =
      { sm with
        pttStates := jsMapDelete sm.pttStates cd.gamertag,
        voiceStates := jsMapDelete sm.voiceStates cd.gamertag,
        rateLimits := jsMapDelete sm.rateLimits ws,
        clients := jsMapDelete sm.clients ws } := by
    unfold removeClient
    rw [hreg]
  have hnoop : ∀ sm₂ : StateManager, jsMapGet sm₂.clients ws = none →
      sm₂.removeClient ws = sm₂ := by
    intro sm₂ h
    unfold removeClient
    rw [h]
  refine ⟨?_, ?_, ?_, ?_, hnoop, ?_, ?_⟩
  · rw [hrm]; exact jsMapGet_delete_self _ _ hwc
  · rw [hrm]; exact jsMapGet_delete_self _ _ hwp
  · rw [hrm]; exact jsMapGet_delete_self _ _ hwv
  · rw [hrm]; exact jsMapGet_delete_self _ _ hwr
  · intro sm₂ hn
    cases hg : jsMapGet sm₂.clients ws with
    | none =>
        rw [hnoop sm₂ hg]
        exact hnoop sm₂ hg
    | some cd₂ =>
        have h1 : sm₂.removeClient ws =
            { sm₂ with
              pttStates := jsMapDelete sm₂.pttStates cd₂.gamertag,
              voiceStates := jsMapDelete sm₂.voiceStates cd₂.gamertag,
              rateLimits := jsMapDelete sm₂.rateLimits ws,
              clients := jsMapDelete sm₂.clients ws } := by
          unfold removeClient
          rw [hg]
        apply hnoop
        rw [h1]
        exact jsMapGet_delete_self _ _ hn
  · intro huniq
    rw [hrm]
    apply findConnAux_eq_none
    intro c d hmem hgtag
    exfalso
    have hm0 : (c, d) ∈ sm.clients :=
      mem_of_mem_jsMapDelete sm.clients ws (c, d) hmem
    have hcw : c = ws := huniq (c, d) hm0 hgtag
    subst hcw
    exact not_mem_jsMapDelete_self sm.clients c d hwc hmem

/-- Witness for C4 at smAliceBob: removing connection 0 removes
the Alice entries everywhere, the second removal is a no-op, and
findConnection misses Alice. -/
theorem deregister_spec_witness :
    jsMapGet (smAliceBob.removeClient 0).clients 0 = none ∧
    jsMapGet (smAliceBob.removeClient 0).pttStates "Alice" = none ∧
    jsMapGet (smAliceBob.removeClient 0).voiceStates "Alice" = none ∧
    jsMapGet (smAliceBob.removeClient 0).rateLimits 0 = none ∧
    (smAliceBob.removeClient 0).removeClient 0 =
      smAliceBob.removeClient 0 ∧
    findConnection (smAliceBob.removeClient 0) "Alice" = none := by
  have h := deregister_spec smAliceBob 0 aliceData (by decide) (by decide)
    (by decide) (by decide) (by decide)
  exact ⟨h.1, h.2.1, h.2.2.1, h.2.2.2.1,
    h.2.2.2.2.2.1 smAliceBob (by decide), h.2.2.2.2.2.2 (by decide)⟩

/-- Snapshot player for the C7 scenario. -/
def aliceSnapshotPlayer : Player :=
  { name := some "Alice",
    data := some { isMuted := true, isTalking := false,
                   voiceVolume := some (-30) } }

/-- C7: snapshot ingestion upserts PTTState and VoiceState from each
player record with a non-empty name, defaulting a missing or
non-numeric volume to -100; ingesting the single Alice record into a
fresh state makes the ptt-states query return exactly the Alice row
(isTalking false, isMuted true) and the voice-states query exactly
the Alice row with volume -30. -/
theorem snapshot_ingestion_spec :
    (∀ (sm : StateManager) (p : Player) (g : String) (d : PlayerData),
      p.name = some g → g ≠ "" → p.data = some d →
      jsMapGet (processPlayer sm p).pttStates g =
        some { isTalking := d.isTalking, isMuted := d.isMuted } ∧
      jsMapGet (processPlayer sm p).voiceStates g =
        some { isTalking := d.isTalking,
               volume := d.voiceVolume.getD (-100) }) ∧
    pttStatesQuery (minecraftDataPost .init [aliceSnapshotPlayer]) =
      [{ gamertag := "Alice", isTalking := false, isMuted := true }] ∧
    voiceStatesQuery (minecraftDataPost .init [aliceSnapshotPlayer]) =
      [{ gamertag := "Alice", isTalking := false, volume := -30 }] := by
  refine ⟨?_, by decide, by decide⟩
  intro sm p g d hname hg hdata
  simp only [processPlayer, hname, hdata, Option.getD_some]
  rw [if_neg hg]
  exact ⟨jsMapGet_set_self _ _ _, jsMapGet_set_self _ _ _⟩

/-- Witness for C7 at the Alice record on a fresh state. -/
theorem snapshot_ingestion_spec_witness :
    jsMapGet (processPlayer .init aliceSnapshotPlayer).pttStates
        "Alice" = some { isTalking := false, isMuted := true } ∧
    jsMapGet (processPlayer .init aliceSnapshotPlayer).voiceStates
        "Alice" = some { isTalking := false, volume := -30 } :=
  snapshot_ingestion_spec.1 .init aliceSnapshotPlayer "Alice"
    { isMuted := true, isTalking := false, voiceVolume := some (-30) }
    rfl (by decide) rfl

/-- C8: when an already-registered connection joins again under a
fresh identity (not taken, room under capacity, rate limit passed),
its client record is overwritten with the new gamertag while the PTT
and voice entries under the old gamertag are untouched; and any later
removeClient of a connection whose current gamertag differs from the
old one leaves the old-gamertag entries in place. -/
theorem rejoin_orphans_old_state
    (sm : StateManager) (ws : Conn) (cd : ClientData) (g2 : String)
    (cg : Option String) (now : Nat) (ready : Conn → Bool)
    (hreg : jsMapGet sm.clients ws = some cd)
    (hne : cd.gamertag ≠ g2)
    (htaken : sm.isGamertagTaken g2 = false)
    (hcap : sm.clients.length < MAX_CONNECTIONS)
    (hrate : (sm.checkRateLimit ws now).2 = true) :
    (handleMessage sm ws cg (some (.join g2)) now ready).gamertag =
      some g2 ∧
    (jsMapGet (handleMessage sm ws cg (some (.join g2)) now
        ready).sm.clients ws).map ClientData.gamertag = some g2 ∧
    (handleMessage sm ws cg (some (.join g2)) now
        ready).sm.clients.map Prod.fst = sm.clients.map Prod.fst ∧
    jsMapGet (handleMessage sm ws cg (some (.join g2)) now
        ready).sm.pttStates cd.gamertag =
      jsMapGet sm.pttStates cd.gamertag ∧
    jsMapGet (handleMessage sm ws cg (some (.join g2)) now
        ready).sm.voiceStates cd.gamertag =
      jsMapGet sm.voiceStates cd.gamertag ∧
    (∀ (sm₃ : StateManager) (ws₃ : Conn),
      (∀ cd₃ : ClientData, jsMapGet sm₃.clients ws₃ = some cd₃ →
        cd₃.gamertag ≠ cd.gamertag) →
      jsMapGet (sm₃.removeClient ws₃).pttStates cd.gamertag =
        jsMapGet sm₃.pttStates cd.gamertag ∧
      jsMapGet (sm₃.removeClient ws₃).voiceStates cd.gamertag =
        jsMapGet sm₃.voiceStates cd.gamertag) := by
  set sm1 := (sm.checkRateLimit ws now).1 with hsm1
  set sm2 := sm1.updateActivity ws now with hsm2
  have hc1 : sm1.clients = sm.clients := rfl
  have hgam : gamertagsOf sm2.clients = gamertagsOf sm.clients := by
    rw [hsm2, updateActivity_gamertags, hc1]
  have hlen : sm2.clients.length = sm.clients.length := by
    have h := congrArg List.length hgam
    simpa [gamertagsOf] using h
  have htaken2 : sm2.isGamertagTaken g2 = false :=
    (isGamertagTaken_congr sm2 sm hgam g2).trans htaken
  have hptt1 : sm1.pttStates = sm.pttStates := rfl
  have hvoi1 : sm1.voiceStates = sm.voiceStates := rfl
  have hptt2 : sm2.pttStates = sm.pttStates := by
    rw [hsm2, updateActivity_pttStates, hptt1]
  have hvoi2 : sm2.voiceStates = sm.voiceStates := by
    rw [hsm2, updateActivity_voiceStates, hvoi1]
  have hadd : sm2.addClient ws g2 now =
      .ok { sm2 with
        clients := jsMapSet sm2.clients ws
          { gamertag := g2, joinedAt := now,
            lastActivity := now, messageCount := 0 },
        pttStates := jsMapSet sm2.pttStates g2
          { isTalking := true, isMuted := false },
        voiceStates := jsMapSet sm2.voiceStates g2
          { isTalking := false, volume := 0 } } := by
    unfold addClient
    rw [if_neg (by rw [hlen]; exact Nat.not_le.mpr hcap),
        if_neg (by simp [htaken2])]
  obtain ⟨sm3, hsm3⟩ : ∃ x, sm2.addClient ws g2 now = .ok x := ⟨_, hadd⟩
  have hsm3v : sm3 =
      { sm2 with
        clients := jsMapSet sm2.clients ws
          { gamertag := g2, joinedAt := now,
            lastActivity := now, messageCount := 0 },
        pttStates := jsMapSet sm2.pttStates g2
          { isTalking := true, isMuted := false },
        voiceStates := jsMapSet sm2.voiceStates g2
          { isTalking := false, volume := 0 } } :=
    Except.ok.inj (hsm3.symm.trans hadd)
  have hmain : handleMessage sm ws cg (some (.join g2)) now ready =
      { sm := sm3, gamertag := some g2,
        outputs :=
          [.sendTo ws (.participantsList (getParticipants sm3)),
           .bcastExcept ws (.joinEvent g2),
           .bcastAll (.participantsList (getParticipants sm3))] } := by
    unfold handleMessage
    simp only [← hsm1, ← hsm2, hrate, Bool.not_true, Bool.false_eq_true,
      if_false, hsm3]
  refine ⟨by rw [hmain], ?_, ?_, ?_, ?_, ?_⟩
  · rw [hmain]
    show (jsMapGet sm3.clients ws).map _ = some g2
    rw [hsm3v]
    show (jsMapGet (jsMapSet sm2.clients ws _) ws).map _ = some g2
    rw [jsMapGet_set_self]
    rfl
  · rw [hmain]
    show sm3.clients.map Prod.fst = sm.clients.map Prod.fst
    rw [hsm3v]
    show (jsMapSet sm2.clients ws _).map Prod.fst = sm.clients.map Prod.fst
    have hreg2 : jsMapGet sm2.clients ws = some
        { cd with lastActivity := now,
                  messageCount := cd.messageCount + 1 } := by
      rw [hsm2]
      exact updateActivity_get_self sm1 ws now cd (hc1 ▸ hreg)
    rw [jsMapSet_map_of_get_some sm2.clients ws
      { gamertag := g2, joinedAt := now, lastActivity := now,
        messageCount := 0 } _ Prod.fst hreg2 rfl]
    rw [hsm2, updateActivity_keys, hc1]
  · rw [hmain]
    show jsMapGet sm3.pttStates cd.gamertag = _
    rw [hsm3v]
    show jsMapGet (jsMapSet sm2.pttStates g2 _) cd.gamertag = _
    rw [jsMapGet_set_ne _ _ _ _ (Ne.symm hne), hptt2]
  · rw [hmain]
    show jsMapGet sm3.voiceStates cd.gamertag = _
    rw [hsm3v]
    show jsMapGet (jsMapSet sm2.voiceStates g2 _) cd.gamertag = _
    rw [jsMapGet_set_ne _ _ _ _ (Ne.symm hne), hvoi2]
  · intro sm₃ ws₃ hdiff
    cases hg : jsMapGet sm₃.clients ws₃ with
    | none =>
        have : sm₃.removeClient ws₃ = sm₃ := by
          unfold removeClient
          rw [hg]
        rw [this]
        exact ⟨rfl, rfl⟩
    | some cd₃ =>
        have hrm : sm₃.removeClient ws₃ =
            { sm₃ with
              pttStates := jsMapDelete sm₃.pttStates cd₃.gamertag,
              voiceStates := jsMapDelete sm₃.voiceStates cd₃.gamertag,
              rateLimits := jsMapDelete sm₃.rateLimits ws₃,
              clients := jsMapDelete sm₃.clients ws₃ } := by
          unfold removeClient
          rw [hg]
        rw [hrm]
        exact ⟨jsMapGet_delete_ne _ _ _ (hdiff cd₃ hg),
               jsMapGet_delete_ne _ _ _ (hdiff cd₃ hg)⟩

/-- Witness for C8: Alice on connection 0 rejoins as Alicia; the
client record now reads Alicia while the Alice PTT entry survives,
and it also survives the subsequent removeClient of connection 0. -/
theorem rejoin_orphans_old_state_witness :
    (handleMessage smAlice 0 (some "Alice") (some (.join "Alicia")) 40
        readyAll).gamertag = some "Alicia" ∧
    (jsMapGet (handleMessage smAlice 0 (some "Alice")
        (some (.join "Alicia")) 40 readyAll).sm.clients 0).map
      ClientData.gamertag = some "Alicia" ∧
    jsMapGet (handleMessage smAlice 0 (some "Alice")
        (some (.join "Alicia")) 40 readyAll).sm.pttStates
      aliceData.gamertag = some { isTalking := true, isMuted := false } := by
  have h := rejoin_orphans_old_state smAlice 0 aliceData "Alicia"
    (some "Alice") 40 readyAll (by decide) (by decide) (by decide)
    (by decide) (by decide)
  refine ⟨h.1, h.2.1, ?_⟩
  rw [h.2.2.2.1]
  decide

/-- C9: voice-detection and ptt-status messages upsert the voice
respectively PTT state for whatever gamertag the message names, for
any sender and with no registration check (the state sm and gamertag
g are arbitrary and unrelated); concretely, an unregistered sender on
a fresh state creates a Ghost voice entry although no participant and
no connection for Ghost exists. -/
theorem state_upserts_unchecked
    (sm : StateManager) (ws : Conn) (cg : Option String) (g : String)
    (t muted : Bool) (v : Option Int) (now : Nat) (ready : Conn → Bool)
    (hrate : (sm.checkRateLimit ws now).2 = true) :
    jsMapGet (handleMessage sm ws cg (some (.voiceDetection g t v)) now
        ready).sm.voiceStates g =
      some { isTalking := t, volume := v.getD 0 } ∧
    jsMapGet (handleMessage sm ws cg (some (.pttStatus g t muted)) now
        ready).sm.pttStates g =
      some { isTalking := t, isMuted := muted } ∧
    (handleMessage sm ws cg (some (.pttStatus g t muted)) now
        ready).outputs = [.bcastAll (.pttUpdate g t muted)] ∧
    jsMapGet (handleMessage .init 7 none
        (some (.voiceDetection "Ghost" true (some (-20)))) 0
        readyAll).sm.voiceStates "Ghost" =
      some { isTalking := true, volume := -20 } ∧
    (handleMessage .init 7 none
        (some (.voiceDetection "Ghost" true (some (-20)))) 0
        readyAll).sm.clients = [] ∧
    findConnection (handleMessage .init 7 none
        (some (.voiceDetection "Ghost" true (some (-20)))) 0
        readyAll).sm "Ghost" = none := by
  refine ⟨?_, ?_, ?_, by decide, by decide, by decide⟩
  · unfold handleMessage
    simp only [hrate, Bool.not_true, Bool.false_eq_true, if_false]
    exact jsMapGet_set_self _ _ _
  · unfold handleMessage
    simp only [hrate, Bool.not_true, Bool.false_eq_true, if_false]
    exact jsMapGet_set_self _ _ _
  · unfold handleMessage
    simp only [hrate, Bool.not_true, Bool.false_eq_true, if_false]

/-- Witness for C9: connection 1 (registered as Bob) overwrites the
PTT state of Alice, a gamertag it does not own. -/
theorem state_upserts_unchecked_witness :
    jsMapGet (handleMessage smAliceBob 1 (some "Bob")
        (some (.pttStatus "Alice" false true)) 100
        readyAll).sm.pttStates "Alice" =
      some { isTalking := false, isMuted := true } :=
  (state_upserts_unchecked smAliceBob 1 (some "Bob") "Alice" false true
    none 100 readyAll (by decide)).2.1

/-- C10: after a registered connection (recorded gamertag g, non-empty
so that the truthiness guard of the close handler passes) sends leave,
the handler removes the client but leaves the per-connection gamertag
variable set; the later close handler therefore broadcasts a second
leave event for the same g to the others and the participants list to
all, while the removal itself is not repeated (the second removeClient
finds no client record and the state is unchanged). -/
theorem leave_then_close_double_leave
    (sm : StateManager) (ws : Conn) (cd : ClientData) (now : Nat)
    (ready : Conn → Bool)
    (hreg : jsMapGet sm.clients ws = some cd)
    (hge : cd.gamertag ≠ "")
    (hnodup : keysNodup sm.clients)
    (hrate : (sm.checkRateLimit ws now).2 = true) :
    (handleMessage sm ws (some cd.gamertag) (some .leave) now
        ready).gamertag = some cd.gamertag ∧
    jsMapGet (handleMessage sm ws (some cd.gamertag) (some .leave) now
        ready).sm.clients ws = none ∧
    handleClose (handleMessage sm ws (some cd.gamertag) (some .leave)
        now ready).sm ws
      (handleMessage sm ws (some cd.gamertag) (some .leave) now
        ready).gamertag =
      ((handleMessage sm ws (some cd.gamertag) (some .leave) now
          ready).sm,
       [.bcastExcept ws (.leaveEvent (some cd.gamertag)),
        .bcastAll (.participantsList
          ((handleMessage sm ws (some cd.gamertag) (some .leave) now
            ready).sm.getParticipants))]) := by
  set sm1 := (sm.checkRateLimit ws now).1 with hsm1
  set sm2 := sm1.updateActivity ws now with hsm2
  have hc1 : sm1.clients = sm.clients := rfl
  have hmain : handleMessage sm ws (some cd.gamertag) (some .leave) now
      ready =
      { sm := sm2.removeClient ws, gamertag := some cd.gamertag,
        outputs := [.bcastExcept ws (.leaveEvent (some cd.gamertag))] } := by
    unfold handleMessage
    simp only [← hsm1, ← hsm2, hrate, Bool.not_true, Bool.false_eq_true,
      if_false]
  have hreg2 : jsMapGet sm2.clients ws = some
      { cd with lastActivity := now,
                messageCount := cd.messageCount + 1 } := by
    rw [hsm2]
    exact updateActivity_get_self sm1 ws now cd (hc1 ▸ hreg)
  have hnodup2 : keysNodup sm2.clients := by
    show (sm2.clients.map Prod.fst).Nodup
    rw [hsm2, updateActivity_keys, hc1]
    exact hnodup
  have hrm : (sm2.removeClient ws) =
      { sm2 with
        pttStates := jsMapDelete sm2.pttStates cd.gamertag,
        voiceStates := jsMapDelete sm2.voiceStates cd.gamertag,
        rateLimits := jsMapDelete sm2.rateLimits ws,
        clients := jsMapDelete sm2.clients ws } := by
    unfold removeClient
    rw [hreg2]
  have hnone : jsMapGet (sm2.removeClient ws).clients ws = none := by
    rw [hrm]
    exact jsMapGet_delete_self _ _ hnodup2
  have hnoop0 : ∀ X : StateManager, jsMapGet X.clients ws = none →
      X.removeClient ws = X := by
    intro X h
    unfold removeClient
    rw [h]
  have hnoop : (sm2.removeClient ws).removeClient ws =
      sm2.removeClient ws := hnoop0 _ hnone
  have htruthy : jsTruthyStr (some cd.gamertag) = true := by
    simp [jsTruthyStr, hge]
  refine ⟨by rw [hmain], by rw [hmain]; exact hnone, ?_⟩
  rw [hmain]
  show handleClose (sm2.removeClient ws) ws (some cd.gamertag) = _
  unfold handleClose
  rw [if_pos htruthy]
  rw [hnoop]

/-- Witness for C10: Alice leaves at time 50 and her connection then
closes; the close handler broadcasts a second leave for Alice and the
(now empty) participants list, without touching the state again. -/
theorem leave_then_close_double_leave_witness :
    (handleMessage smAlice 0 (some "Alice") (some .leave) 50
        readyAll).gamertag = some "Alice" ∧
    jsMapGet (handleMessage smAlice 0 (some "Alice") (some .leave) 50
        readyAll).sm.clients 0 = none ∧
    handleClose (handleMessage smAlice 0 (some "Alice") (some .leave)
        50 readyAll).sm 0
      (handleMessage smAlice 0 (some "Alice") (some .leave) 50
        readyAll).gamertag =
      ((handleMessage smAlice 0 (some "Alice") (some .leave) 50
          readyAll).sm,
       [.bcastExcept 0 (.leaveEvent (some "Alice")),
        .bcastAll (.participantsList
          ((handleMessage smAlice 0 (some "Alice") (some .leave) 50
            readyAll).sm.getParticipants))]) :=
  leave_then_close_double_leave smAlice 0 aliceData 50 readyAll
    (by decide) (by decide) (by decide) (by decide)

end EnviroVoice
